import Mathlib

/-!
Verification of the daisy worker-side client (`daisy/client_scheduler.py`).

The file shallowly embeds the `ClientScheduler` class: the receive loop
(`async_recv`), the work queue bridging it to `acquire_block`, the
`release_block` return-code mapping, the `DAISY_CONTEXT` bootstrap parsing
in `__init__`, the bounded-retry connect (`_connect_with_retry`), and the
`connected`/`error_state` session flags set by `_start` and polled by the
constructor.  Network input is modelled as an explicit trace of receive
events; blocking waits are modelled by an `Option` result where `none`
means the call would block with nothing available.
-/

namespace Daisy

/-- The message kinds of `tcp.SchedulerMessageType` used by the client. -/
inductive SchedulerMessageType
  | NEW_BLOCK
  | TERMINATE_WORKER
  | WORKER_GET_BLOCK
  | WORKER_RET_BLOCK
  | WORKER_EXITING
deriving DecidableEq, Repr

/-- The `tcp.ReturnCode` enum carried by `WORKER_RET_BLOCK` messages. -/
inductive ReturnCode
  | SUCCESS
  | ERROR
deriving DecidableEq, Repr

/-- A daisy block: opaque to the client except for its `block_id`. -/
structure Block where
  block_id : Nat
deriving DecidableEq, Repr

/-- Message payloads (`msg.data` is dynamically typed in Python; this sum
type covers the payload shapes the client produces or consumes). -/
inductive MsgData
  | nodata
  | blockData (b : Block)
  | taskData (task_id : String)
  | retData (task_id : String) (block_id : Nat) (rc : ReturnCode)
deriving DecidableEq, Repr

/-- A `tcp.SchedulerMessage`: a type tag and a payload. -/
structure SchedulerMessage where
  type : SchedulerMessageType
  data : MsgData
deriving DecidableEq, Repr

/-- An entry of `self.job_queue`: either the terminal sentinel (Python
`None`) or a block payload appended on a `NEW_BLOCK` message. -/
inductive QueueItem
  | sentinel
  | item (d : MsgData)
deriving DecidableEq, Repr

/-- One outcome of `await get_and_unpack_message(self.stream)` inside the
receive loop: a decoded message, or a `StreamClosedError`. -/
inductive RecvEvent
  | msg (m : SchedulerMessage)
  | streamClosed
deriving DecidableEq, Repr

/-- The `WORKER_EXITING` message sent on `TERMINATE_WORKER` (no payload). -/
def workerExitingMsg : SchedulerMessage :=
  ⟨SchedulerMessageType.WORKER_EXITING, MsgData.nodata⟩

/-- The `while True` body of `ClientScheduler.async_recv`, run over a trace
of receive events.  Returns the queue items appended inside the loop, the
messages sent inside the loop, and whether the loop exited via `break`
(`TERMINATE_WORKER` or `StreamClosedError`).  An exhausted trace with no
terminating event leaves the loop still awaiting the next message
(third component `false`). -/
def recvLoop : List RecvEvent → List QueueItem × List SchedulerMessage × Bool
  | [] => ([], [], false)
  | RecvEvent.streamClosed :: _ => ([], [], true)
  | RecvEvent.msg m :: rest =>
    if m.type = SchedulerMessageType.NEW_BLOCK then
      let r := recvLoop rest
      (QueueItem.item m.data :: r.1, r.2.1, r.2.2)
    else if m.type = SchedulerMessageType.TERMINATE_WORKER then
      ([], [workerExitingMsg], true)
    else
      recvLoop rest

/-- `ClientScheduler.async_recv`: run the loop; when the loop has exited,
append the terminal sentinel (`self.job_queue.append(None)`) after it.
Returns all queue appends in order, and all messages sent. -/
def async_recv (evs : List RecvEvent) :
    List QueueItem × List SchedulerMessage :=
  let r := recvLoop evs
  if r.2.2 then (r.1 ++ [QueueItem.sentinel], r.2.1) else (r.1, r.2.1)

/-- The client-visible session state: `self.task_id`, the current contents
of `self.job_queue` (front of the list popped first), and the outbound
messages handed to `send` so far, in order. -/
structure ClientState where
  task_id : String
  job_queue : List QueueItem
  sent : List SchedulerMessage
deriving DecidableEq, Repr

/-- The `WORKER_GET_BLOCK` message carrying the task id, as built in
`acquire_block`. -/
def getBlockMsg (task_id : String) : SchedulerMessage :=
  ⟨SchedulerMessageType.WORKER_GET_BLOCK, MsgData.taskData task_id⟩

/-- `ClientScheduler.acquire_block`: send `WORKER_GET_BLOCK(task_id)`, then
perform one blocking `popleft` on the queue.  Result `none` means the queue
was empty so the call is blocked in `job_queue_cv.wait()` with nothing
delivered yet. -/
def acquire_block (s : ClientState) : ClientState × Option QueueItem :=
  let s1 : ClientState :=
    { s with sent := s.sent ++ [getBlockMsg s.task_id] }
  match s1.job_queue with
  | [] => (s1, Option.none)
  | x :: xs => ({ s1 with job_queue := xs }, some x)

/-- `n` successive `acquire_block` calls, collecting each call's result in
order (`none` marking a call that blocked on an empty queue). -/
def acquireN : Nat → ClientState → List (Option QueueItem) × ClientState
  | 0, s => ([], s)
  | n + 1, s =>
    let r := acquire_block s
    let rest := acquireN n r.1
    (r.2 :: rest.1, rest.2)

/-- `ClientScheduler.release_block`: map the integer result code to a
`ReturnCode` (0 to SUCCESS, 1 to ERROR, anything else to SUCCESS with a
warning logged) and build the `WORKER_RET_BLOCK` message carrying
`((task_id, block_id), ret)`.  The boolean records whether the warning was
logged. -/
def release_block (task_id : String) (block : Block) (ret : Int) :
    Bool × SchedulerMessage :=
  if ret = 0 then
    (false, ⟨SchedulerMessageType.WORKER_RET_BLOCK,
             MsgData.retData task_id block.block_id ReturnCode.SUCCESS⟩)
  else if ret = 1 then
    (false, ⟨SchedulerMessageType.WORKER_RET_BLOCK,
             MsgData.retData task_id block.block_id ReturnCode.ERROR⟩)
  else
    (true, ⟨SchedulerMessageType.WORKER_RET_BLOCK,
            MsgData.retData task_id block.block_id ReturnCode.SUCCESS⟩)

/-- The two exceptions `__init__` can surface while resolving the
`DAISY_CONTEXT` environment variable: `KeyError` when the variable is
absent, `ValueError` when the colon-split does not unpack into exactly
three parts.  Each has its own log message in the source. -/
inductive ContextError
  | keyError
  | valueError
deriving DecidableEq, Repr

/-- Python `s.split(':')` on a string viewed as a list of characters:
split at every colon, keeping empty parts (n colons yield n+1 parts). -/
def splitColon : List Char → List (List Char)
  | [] => [[]]
  | c :: cs =>
    if c = ':' then [] :: splitColon cs
    else
      match splitColon cs with
      | [] => [[c]]
      | grp :: rest => (c :: grp) :: rest

/-- The bootstrap parsing in `ClientScheduler.__init__`:
`os.environ['DAISY_CONTEXT']` (absent env gives `KeyError`), split on
colons, then the unpack `sched_addr, sched_port, task_id = context`
(`ValueError` unless exactly three parts). -/
def parseDaisyContext (env : Option (List Char)) :
    Except ContextError (List Char × List Char × List Char) :=
  match env with
  | Option.none => Except.error ContextError.keyError
  | some ctx =>
    match splitColon ctx with
    | [a, p, t] => Except.ok (a, p, t)
    | _ => Except.error ContextError.valueError

/-- The parameter-resolution step of `__init__`: when any of `sched_addr`,
`sched_port`, `task_id` is `None`, all three are re-read from the
`DAISY_CONTEXT` environment variable (the tuple unpack overwrites every
one of them); only when all three were passed is the environment left
unread. -/
def resolveContext (sched_addr sched_port task_id : Option (List Char))
    (env : Option (List Char)) :
    Except ContextError (List Char × List Char × List Char) :=
  match sched_addr, sched_port, task_id with
  | some a, some p, some t => Except.ok (a, p, t)
  | _, _, _ => parseDaisyContext env

/-- `_connect_with_retry`, with one connect attempt per loop iteration.
`f i = true` means the `i`-th attempt (0-based) succeeds.  The argument is
the number of further retries the counter still allows (`10 - counter`).
Returns the successful attempt's index (the stream) or `none`, together
with the number of attempts made and the number of 1-second sleeps. -/
def connectRetryAux (f : Nat → Bool) : Nat → Nat → Option Nat × Nat × Nat
  | attempt, 0 =>
    if f attempt then (some attempt, 1, 0) else (Option.none, 1, 0)
  | attempt, r + 1 =>
    if f attempt then (some attempt, 1, 0)
    else
      let res := connectRetryAux f (attempt + 1) r
      (res.1, res.2.1 + 1, res.2.2 + 1)

/-- `_connect_with_retry` entry point: counter starts at 0 and the loop
gives up once the counter exceeds 10. -/
def connect_with_retry (f : Nat → Bool) : Option Nat × Nat × Nat :=
  connectRetryAux f 0 10

/-- The session flags `self.connected` / `self.error_state`. -/
structure SessionFlags where
  connected : Bool
  error_state : Bool
deriving DecidableEq, Repr

/-- The flags as initialised at the top of `__init__`. -/
def initFlags : SessionFlags := ⟨false, false⟩

/-- The flags after `_start` ran with the given connect result: a failed
connect sets `error_state`, a successful one sets `connected`. -/
def startFlags (connectResult : Option Nat) : SessionFlags :=
  match connectResult with
  | Option.none => { initFlags with error_state := true }
  | some _ => { initFlags with connected := true }

/-- The flag states the session can be in: the initial state and the state
left by `_start` (the only code that writes either flag). -/
inductive FlagsReachable : SessionFlags → Prop
  | init : FlagsReachable initFlags
  | started (r : Option Nat) : FlagsReachable (startFlags r)

/-- What the constructor's polling loop does once the flags settle. -/
inductive InitOutcome
  | ready
  | exited (code : Nat)
deriving DecidableEq, Repr

/-- The `while not self.connected` polling loop at the end of `__init__`:
returns once `connected` holds, calls `sys.exit(1)` once `error_state`
holds, and otherwise keeps polling (`none`: still waiting). -/
def initWait (fl : SessionFlags) : Option InitOutcome :=
  if fl.connected then some InitOutcome.ready
  else if fl.error_state then some (InitOutcome.exited 1)
  else Option.none

/-- Number of connect attempts made by an initialisation run: zero when
context resolution raises (the exception propagates out of `__init__`
before `add_callback(self._start)` is reached). -/
def initConnectAttempts (sched_addr sched_port task_id : Option (List Char))
    (env : Option (List Char)) (f : Nat → Bool) : Nat :=
  match resolveContext sched_addr sched_port task_id env with
  | Except.error _ => 0
  | Except.ok _ => (connect_with_retry f).2.1

/-! ### Helper lemmas -/

/-- Inside the receive loop only `NEW_BLOCK` payloads are appended, never
the sentinel: the sole `append(None)` sits after the loop. -/
lemma recvLoop_no_sentinel (evs : List RecvEvent) :
    QueueItem.sentinel ∉ (recvLoop evs).1 := by
  induction evs with
  | nil => simp [recvLoop]
  | cons ev rest ih =>
    cases ev with
    | streamClosed => simp [recvLoop]
    | msg m =>
      by_cases h1 : m.type = SchedulerMessageType.NEW_BLOCK
      · simp [recvLoop, h1, ih]
      · by_cases h2 : m.type = SchedulerMessageType.TERMINATE_WORKER
        · simp [recvLoop, h1, h2]
        · simpa [recvLoop, h1, h2] using ih

/-- A trace consisting only of `NEW_BLOCK` messages keeps the loop
running, sends nothing, and appends exactly the payloads in order. -/
lemma recvLoop_newBlocks (ds : List MsgData) :
    recvLoop (ds.map fun d =>
        RecvEvent.msg ⟨SchedulerMessageType.NEW_BLOCK, d⟩) =
      (ds.map QueueItem.item, [], false) := by
  induction ds with
  | nil => simp [recvLoop]
  | cons d rest ih => simp [recvLoop, ih]

/-- Closed form of one `acquire_block` call: the sent list grows by the
single `WORKER_GET_BLOCK` message, the queue loses its head, and the head
(or `none` on an empty queue, meaning the call blocks) is returned. -/
lemma acquire_block_eq (s : ClientState) :
    acquire_block s =
      ({ task_id := s.task_id, job_queue := s.job_queue.tail,
         sent := s.sent ++ [getBlockMsg s.task_id] }, s.job_queue.head?) := by
  obtain ⟨tid, q, sent⟩ := s
  cases q <;> simp [acquire_block]

/-- Draining a queue of known contents: as many `acquire_block` calls as
there are items return exactly those items in order and leave the queue
empty. -/
lemma acquireN_full (q : List QueueItem) :
    ∀ s : ClientState, s.job_queue = q →
      (acquireN q.length s).1 = q.map some ∧
      (acquireN q.length s).2.job_queue = [] := by
  induction q with
  | nil => intro s hs; simp [acquireN, hs]
  | cons x xs ih =>
    intro s hs
    have hstep : acquire_block s =
        ({ task_id := s.task_id, job_queue := xs,
           sent := s.sent ++ [getBlockMsg s.task_id] }, some x) := by
      rw [acquire_block_eq, hs]; rfl
    have := ih { task_id := s.task_id, job_queue := xs,
                 sent := s.sent ++ [getBlockMsg s.task_id] } rfl
    simp only [List.length_cons, acquireN, hstep]
    exact ⟨by simp [this.1], this.2⟩

/-! ### Claim theorems -/

/-- C1: when the receive loop exits, via `TERMINATE_WORKER` or via a
`StreamClosedError`, exactly one terminal sentinel is appended to the work
queue, it is the last item appended, and no block is appended after it:
the appends are the in-loop block appends (which contain no sentinel)
followed by the single sentinel. -/
theorem claim_C1_sentinel_once (evs : List RecvEvent)
    (h : (recvLoop evs).2.2 = true) :
    (async_recv evs).1 = (recvLoop evs).1 ++ [QueueItem.sentinel] ∧
    QueueItem.sentinel ∉ (recvLoop evs).1 ∧
    (async_recv evs).1.count QueueItem.sentinel = 1 ∧
    (async_recv evs).1.getLast? = some QueueItem.sentinel := by
  have happ : (async_recv evs).1 =
      (recvLoop evs).1 ++ [QueueItem.sentinel] := by
    simp [async_recv, h]
  refine ⟨happ, recvLoop_no_sentinel evs, ?_, ?_⟩
  · rw [happ, List.count_append,
      List.count_eq_zero.mpr (recvLoop_no_sentinel evs)]
    simp
  · rw [happ]
    exact List.getLast?_concat _

/-- Witness for C1 on both exit paths: a trace ending in a stream-closed
error and a trace ending in a terminate message each yield exactly one
sentinel, placed last. -/
theorem claim_C1_sentinel_once_witness :
    ((recvLoop [RecvEvent.streamClosed]).2.2 = true ∧
      (async_recv [RecvEvent.streamClosed]).1.count QueueItem.sentinel = 1 ∧
      (async_recv [RecvEvent.streamClosed]).1.getLast? =
        some QueueItem.sentinel) ∧
    ((recvLoop [RecvEvent.msg ⟨SchedulerMessageType.TERMINATE_WORKER,
        MsgData.nodata⟩]).2.2 = true ∧
      (async_recv [RecvEvent.msg ⟨SchedulerMessageType.TERMINATE_WORKER,
        MsgData.nodata⟩]).1.count QueueItem.sentinel = 1) :=
  ⟨⟨by decide, (claim_C1_sentinel_once _ (by decide)).2.2.1,
    (claim_C1_sentinel_once _ (by decide)).2.2.2⟩,
   ⟨by decide, (claim_C1_sentinel_once _ (by decide)).2.2.1⟩⟩

/-- C2: for a trace of two or more `NEW_BLOCK` messages, the work queue
holds exactly the payloads in receipt order (unbounded: its length equals
the trace length, with blocks delivered into the queue before any consumer
waits), and successive `acquire_block` calls return them in that same
strict FIFO order. -/
theorem claim_C2_fifo_order (tid : String) (ds : List MsgData)
    (_h : 2 ≤ ds.length) :
    (async_recv (ds.map fun d =>
        RecvEvent.msg ⟨SchedulerMessageType.NEW_BLOCK, d⟩)).1 =
      ds.map QueueItem.item ∧
    (async_recv (ds.map fun d =>
        RecvEvent.msg ⟨SchedulerMessageType.NEW_BLOCK, d⟩)).1.length =
      ds.length ∧
    (acquireN ds.length
        ⟨tid, (async_recv (ds.map fun d =>
          RecvEvent.msg ⟨SchedulerMessageType.NEW_BLOCK, d⟩)).1, []⟩).1 =
      ds.map fun d => some (QueueItem.item d) := by
  have hq : (async_recv (ds.map fun d =>
      RecvEvent.msg ⟨SchedulerMessageType.NEW_BLOCK, d⟩)).1 =
      ds.map QueueItem.item := by
    simp [async_recv, recvLoop_newBlocks]
  refine ⟨hq, by simp [hq], ?_⟩
  have hlen : ds.length = (ds.map QueueItem.item).length := by simp
  rw [hq, hlen]
  have := (acquireN_full (ds.map QueueItem.item)
      ⟨tid, ds.map QueueItem.item, []⟩ rfl).1
  rw [this, List.map_map]
  rfl

/-- Witness for C2 at a concrete two-block trace. -/
theorem claim_C2_fifo_order_witness :
    2 ≤ ([MsgData.blockData ⟨1⟩, MsgData.blockData ⟨2⟩] : List MsgData).length ∧
    (acquireN 2
        ⟨"worker-7",
         (async_recv ([MsgData.blockData ⟨1⟩, MsgData.blockData ⟨2⟩].map
           fun d => RecvEvent.msg ⟨SchedulerMessageType.NEW_BLOCK, d⟩)).1,
         []⟩).1 =
      [some (QueueItem.item (MsgData.blockData ⟨1⟩)),
       some (QueueItem.item (MsgData.blockData ⟨2⟩))] :=
  ⟨by decide,
   (claim_C2_fifo_order "worker-7"
     [MsgData.blockData ⟨1⟩, MsgData.blockData ⟨2⟩] (by decide)).2.2⟩

/-- C3: `release_block` maps result code 0 to a `WORKER_RET_BLOCK` message
carrying `((task_id, block_id), SUCCESS)` with no warning, 1 to one
carrying `ERROR` with no warning, and every other integer to `SUCCESS`
with a warning logged; being a total function, it never fails on an
out-of-range code. -/
theorem claim_C3_release_codes (tid : String) (b : Block) :
    release_block tid b 0 =
      (false, ⟨SchedulerMessageType.WORKER_RET_BLOCK,
               MsgData.retData tid b.block_id ReturnCode.SUCCESS⟩) ∧
    release_block tid b 1 =
      (false, ⟨SchedulerMessageType.WORKER_RET_BLOCK,
               MsgData.retData tid b.block_id ReturnCode.ERROR⟩) ∧
    ∀ r : Int, r ≠ 0 → r ≠ 1 →
      release_block tid b r =
        (true, ⟨SchedulerMessageType.WORKER_RET_BLOCK,
                MsgData.retData tid b.block_id ReturnCode.SUCCESS⟩) := by
  refine ⟨by simp [release_block], by simp [release_block], ?_⟩
  intro r h0 h1
  simp [release_block, h0, h1]

/-- Witness for C3 at result codes 0, 1 and the out-of-range code 2. -/
theorem claim_C3_release_codes_witness :
    release_block "worker-7" ⟨7⟩ 0 =
      (false, ⟨SchedulerMessageType.WORKER_RET_BLOCK,
               MsgData.retData "worker-7" 7 ReturnCode.SUCCESS⟩) ∧
    release_block "worker-7" ⟨7⟩ 1 =
      (false, ⟨SchedulerMessageType.WORKER_RET_BLOCK,
               MsgData.retData "worker-7" 7 ReturnCode.ERROR⟩) ∧
    (2 : Int) ≠ 0 ∧ (2 : Int) ≠ 1 ∧
    release_block "worker-7" ⟨7⟩ 2 =
      (true, ⟨SchedulerMessageType.WORKER_RET_BLOCK,
              MsgData.retData "worker-7" 7 ReturnCode.SUCCESS⟩) :=
  ⟨(claim_C3_release_codes "worker-7" ⟨7⟩).1,
   (claim_C3_release_codes "worker-7" ⟨7⟩).2.1,
   by decide, by decide,
   (claim_C3_release_codes "worker-7" ⟨7⟩).2.2 2 (by decide) (by decide)⟩

/-- C4: a bootstrap string splitting into exactly three colon-separated
parts parses to exactly that `(address, port, task_id)` triplet (for
example `10.0.0.5:9000:worker-7`); any string with a different number of
parts fails with `ValueError`, a missing `DAISY_CONTEXT` fails with the
distinct `KeyError`, and a resolution error means zero connect attempts
are ever made. -/
theorem claim_C4_bootstrap_parse :
    (∀ s a p t, splitColon s = [a, p, t] →
      parseDaisyContext (some s) = Except.ok (a, p, t)) ∧
    parseDaisyContext (some ("10.0.0.5:9000:worker-7".toList)) =
      Except.ok ("10.0.0.5".toList, "9000".toList, "worker-7".toList) ∧
    (∀ s, (splitColon s).length ≠ 3 →
      parseDaisyContext (some s) = Except.error ContextError.valueError) ∧
    parseDaisyContext Option.none = Except.error ContextError.keyError ∧
    ContextError.keyError ≠ ContextError.valueError ∧
    ∀ sa sp tid env e f, resolveContext sa sp tid env = Except.error e →
      initConnectAttempts sa sp tid env f = 0 := by
  refine ⟨?_, rfl, ?_, rfl, by decide, ?_⟩
  · intro s a p t hs
    simp [parseDaisyContext, hs]
  · intro s h
    cases hs : splitColon s with
    | nil => simp [parseDaisyContext, hs]
    | cons a l1 =>
      cases l1 with
      | nil => simp [parseDaisyContext, hs]
      | cons p l2 =>
        cases l2 with
        | nil => simp [parseDaisyContext, hs]
        | cons t l3 =>
          cases l3 with
          | nil => exact absurd (by rw [hs]; rfl) h
          | cons u l4 => simp [parseDaisyContext, hs]
  · intro sa sp tid env e f h
    unfold initConnectAttempts
    rw [h]

/-- Witness for C4: the example triplet parses, a two-part string is
rejected as malformed, and a missing environment variable aborts with
`KeyError` before any connect attempt. -/
theorem claim_C4_bootstrap_parse_witness :
    splitColon ("10.0.0.5:9000:worker-7".toList) =
      ["10.0.0.5".toList, "9000".toList, "worker-7".toList] ∧
    parseDaisyContext (some ("10.0.0.5:9000:worker-7".toList)) =
      Except.ok ("10.0.0.5".toList, "9000".toList, "worker-7".toList) ∧
    (splitColon ("10.0.0.5:9000".toList)).length ≠ 3 ∧
    parseDaisyContext (some ("10.0.0.5:9000".toList)) =
      Except.error ContextError.valueError ∧
    resolveContext Option.none Option.none Option.none Option.none =
      Except.error ContextError.keyError ∧
    initConnectAttempts Option.none Option.none Option.none Option.none
      (fun _ => true) = 0 :=
  ⟨by decide,
   claim_C4_bootstrap_parse.1 _ _ _ _ (by decide),
   by decide,
   claim_C4_bootstrap_parse.2.2.1 _ (by decide),
   rfl,
   claim_C4_bootstrap_parse.2.2.2.2.2 _ _ _ _ ContextError.keyError _ rfl⟩

/-! Helper lemmas for the bounded connect retry. -/

/-- The retry loop makes at most one attempt more than the retries still
allowed. -/
lemma connectRetryAux_attempts_le (f : Nat → Bool) :
    ∀ rem att, (connectRetryAux f att rem).2.1 ≤ rem + 1 := by
  intro rem
  induction rem with
  | zero => intro att; by_cases h : f att <;> simp [connectRetryAux, h]
  | succ r ih =>
    intro att
    by_cases h : f att
    · simp [connectRetryAux, h]
    · simpa [connectRetryAux, h] using ih (att + 1)

/-- Every attempt except the last is followed by exactly one sleep. -/
lemma connectRetryAux_sleeps (f : Nat → Bool) :
    ∀ rem att,
      (connectRetryAux f att rem).2.2 + 1 = (connectRetryAux f att rem).2.1 := by
  intro rem
  induction rem with
  | zero => intro att; by_cases h : f att <;> simp [connectRetryAux, h]
  | succ r ih =>
    intro att
    by_cases h : f att
    · simp [connectRetryAux, h]
    · simpa [connectRetryAux, h] using ih (att + 1)

/-- A run that gives up made exactly `rem + 1` attempts: the bound was
fully used. -/
lemma connectRetryAux_none_attempts (f : Nat → Bool) :
    ∀ rem att, (connectRetryAux f att rem).1 = Option.none →
      (connectRetryAux f att rem).2.1 = rem + 1 := by
  intro rem
  induction rem with
  | zero =>
    intro att h
    by_cases hf : f att
    · simp [connectRetryAux, hf] at h
    · simp [connectRetryAux, hf]
  | succ r ih =>
    intro att h
    by_cases hf : f att
    · simp [connectRetryAux, hf] at h
    · simp only [connectRetryAux, hf, Bool.false_eq_true, if_false] at h ⊢
      rw [ih (att + 1) h]

/-- When every attempt in range fails, the loop returns failure. -/
lemma connectRetryAux_all_fail (f : Nat → Bool) :
    ∀ rem att, (∀ i, att ≤ i → i ≤ att + rem → f i = false) →
      (connectRetryAux f att rem).1 = Option.none := by
  intro rem
  induction rem with
  | zero =>
    intro att h
    simp [connectRetryAux, h att le_rfl (by omega)]
  | succ r ih =>
    intro att h
    have hf : f att = false := h att le_rfl (by omega)
    simp only [connectRetryAux, hf, Bool.false_eq_true, if_false]
    exact ih (att + 1) fun i h1 h2 => h i (by omega) (by omega)

/-- C5: for every sequence of attempt outcomes, `_connect_with_retry`
makes at most 11 attempts (one initial attempt plus at most 10 retries,
so the retry count never exceeds the bound of 10) with exactly one
fixed-interval sleep between consecutive attempts, always terminates with
a result, and when the first 11 attempts all fail it returns the failure
value `none` to its caller rather than raising. -/
theorem claim_C5_connect_retry_bound (f : Nat → Bool) :
    (connect_with_retry f).2.1 ≤ 11 ∧
    (connect_with_retry f).2.2 + 1 = (connect_with_retry f).2.1 ∧
    ((connect_with_retry f).1 = Option.none →
      (connect_with_retry f).2.1 = 11) ∧
    ((∀ i, i ≤ 10 → f i = false) → (connect_with_retry f).1 = Option.none) := by
  refine ⟨connectRetryAux_attempts_le f 10 0,
    connectRetryAux_sleeps f 10 0,
    fun h => connectRetryAux_none_attempts f 10 0 h, fun h => ?_⟩
  exact connectRetryAux_all_fail f 10 0 fun i h1 h2 => h i (by omega)

/-- Witness for C5: with every attempt failing, the loop returns `none`
after exactly 11 attempts and 10 sleeps. -/
theorem claim_C5_connect_retry_bound_witness :
    (∀ i, i ≤ 10 → (fun _ : Nat => false) i = false) ∧
    (connect_with_retry fun _ => false).1 = Option.none ∧
    (connect_with_retry fun _ => false).2.1 = 11 ∧
    (connect_with_retry fun _ => false).2.2 = 10 :=
  ⟨fun i _ => rfl,
   (claim_C5_connect_retry_bound fun _ => false).2.2.2 fun i _ => rfl,
   by decide, by decide⟩

/-- C6: the constructor's polling loop keeps waiting while neither flag is
set, returns once `_start` reports a successful connect, and when the
connect definitively failed (`error_state` set) the one and only outcome
is process termination via `sys.exit(1)`, a positive (non-zero) status. -/
theorem claim_C6_init_failure_exit :
    initWait initFlags = Option.none ∧
    (∀ k, initWait (startFlags (some k)) = some InitOutcome.ready) ∧
    initWait (startFlags Option.none) = some (InitOutcome.exited 1) ∧
    0 < 1 :=
  ⟨rfl, fun _ => rfl, rfl, Nat.zero_lt_one⟩

/-- C7: one `acquire_block` call appends exactly one `WORKER_GET_BLOCK`
message carrying the session's `task_id` to the outbound messages, then
performs exactly one pop: it returns the queue's head (a block or the
terminal sentinel) and leaves the tail; on an empty queue the result is
`none`, the call blocked in the condition-variable wait with no timeout
and no retry. -/
theorem claim_C7_acquire_sends_then_pops (s : ClientState) :
    acquire_block s =
      ({ task_id := s.task_id, job_queue := s.job_queue.tail,
         sent := s.sent ++ [getBlockMsg s.task_id] }, s.job_queue.head?) :=
  acquire_block_eq s

/-- C8 counterexample: in the spec's own scenario (`NEW_BLOCK` with block
42 then `TERMINATE_WORKER`), the first `acquire_block` returns the block,
the second returns the sentinel, and the third call, the second one after
the sentinel was consumed, returns no item: it is blocked on an empty
queue even though the receive loop has exited and will never append
again, so it neither returns the sentinel again nor avoids blocking
forever. -/
theorem claim_C8_no_deadlock_cex :
    (recvLoop [RecvEvent.msg ⟨SchedulerMessageType.NEW_BLOCK,
        MsgData.blockData ⟨42⟩⟩,
      RecvEvent.msg ⟨SchedulerMessageType.TERMINATE_WORKER,
        MsgData.nodata⟩]).2.2 = true ∧
    (acquireN 3 ⟨"worker-7",
        (async_recv [RecvEvent.msg ⟨SchedulerMessageType.NEW_BLOCK,
            MsgData.blockData ⟨42⟩⟩,
          RecvEvent.msg ⟨SchedulerMessageType.TERMINATE_WORKER,
            MsgData.nodata⟩]).1,
        []⟩).1 =
      [some (QueueItem.item (MsgData.blockData ⟨42⟩)),
       some QueueItem.sentinel, Option.none] := by
  decide

/-- C8 as amended: after any terminated receive trace, consuming every
queued item ends with the sentinel and leaves the queue empty, and a
further `acquire_block` call returns no item: it blocks forever, since
the receive loop has exited and never pushes again. -/
theorem claim_C8_second_acquire_blocks (tid : String) (evs : List RecvEvent)
    (h : (recvLoop evs).2.2 = true) :
    (acquireN (async_recv evs).1.length
        ⟨tid, (async_recv evs).1, []⟩).1.getLast? =
      some (some QueueItem.sentinel) ∧
    (acquireN (async_recv evs).1.length
        ⟨tid, (async_recv evs).1, []⟩).2.job_queue = [] ∧
    (acquire_block (acquireN (async_recv evs).1.length
        ⟨tid, (async_recv evs).1, []⟩).2).2 = Option.none := by
  have hfull := acquireN_full (async_recv evs).1
    ⟨tid, (async_recv evs).1, []⟩ rfl
  have hlast : (async_recv evs).1.getLast? = some QueueItem.sentinel := by
    have happ : (async_recv evs).1 =
        (recvLoop evs).1 ++ [QueueItem.sentinel] := by
      simp [async_recv, h]
    rw [happ]
    exact List.getLast?_concat _
  refine ⟨?_, hfull.2, ?_⟩
  · rw [hfull.1, List.getLast?_map, hlast]
    rfl
  · rw [acquire_block_eq]
    simp [hfull.2]

/-- Witness for the amended C8 on the stream-closed exit path. -/
theorem claim_C8_second_acquire_blocks_witness :
    (recvLoop [RecvEvent.streamClosed]).2.2 = true ∧
    (acquire_block (acquireN
        (async_recv [RecvEvent.streamClosed]).1.length
        ⟨"worker-7", (async_recv [RecvEvent.streamClosed]).1, []⟩).2).2 =
      Option.none :=
  ⟨by decide,
   (claim_C8_second_acquire_blocks "worker-7" [RecvEvent.streamClosed]
     (by decide)).2.2⟩

/-- C9: in every reachable flag state, `connected` and `error_state` are
never both true, and the startup sequence `_start` sets exactly one of
them: `connected` on a successful connect, `error_state` on a definitive
failure. -/
theorem claim_C9_flags_exclusive :
    (∀ fl, FlagsReachable fl →
      ¬(fl.connected = true ∧ fl.error_state = true)) ∧
    ∀ r : Option Nat,
      ((startFlags r).connected = true ∧
        (startFlags r).error_state = false) ∨
      ((startFlags r).connected = false ∧
        (startFlags r).error_state = true) := by
  constructor
  · intro fl hfl
    cases hfl with
    | init => simp [initFlags]
    | started r => cases r <;> simp [startFlags, initFlags]
  · intro r
    cases r with
    | none => exact Or.inr ⟨rfl, rfl⟩
    | some k => exact Or.inl ⟨rfl, rfl⟩

/-- Witness for C9 at the two states `_start` can leave and the initial
state. -/
theorem claim_C9_flags_exclusive_witness :
    ¬((startFlags Option.none).connected = true ∧
      (startFlags Option.none).error_state = true) ∧
    ¬((startFlags (some 0)).connected = true ∧
      (startFlags (some 0)).error_state = true) ∧
    ¬(initFlags.connected = true ∧ initFlags.error_state = true) :=
  ⟨claim_C9_flags_exclusive.1 _ (FlagsReachable.started Option.none),
   claim_C9_flags_exclusive.1 _ (FlagsReachable.started (some 0)),
   claim_C9_flags_exclusive.1 _ FlagsReachable.init⟩

/-- C10: whenever any of `sched_addr`, `sched_port`, `task_id` is missing,
the constructor re-reads `DAISY_CONTEXT` and overwrites all three values
from it, so the partially supplied parameters are silently discarded and
a missing or malformed variable raises even then; only when all three are
supplied is the environment never consulted (the result does not depend
on it). -/
theorem claim_C10_partial_params_use_env :
    (∀ sa sp tid env,
      (sa = Option.none ∨ sp = Option.none ∨ tid = Option.none) →
      resolveContext sa sp tid env = parseDaisyContext env) ∧
    (∀ a p t env,
      resolveContext (some a) (some p) (some t) env = Except.ok (a, p, t)) ∧
    resolveContext (some ("10.0.0.5".toList)) (some ("9000".toList))
      Option.none Option.none = Except.error ContextError.keyError ∧
    resolveContext (some ("ignored".toList)) (some ("ignored".toList))
      Option.none (some ("a:p:t".toList)) =
      Except.ok ("a".toList, "p".toList, "t".toList) := by
  refine ⟨?_, fun a p t env => rfl, rfl, rfl⟩
  intro sa sp tid env h
  cases sa <;> cases sp <;> cases tid <;> simp_all [resolveContext]

/-- Witness for C10: a partially supplied parameter set is discarded in
favour of the environment triple. -/
theorem claim_C10_partial_params_use_env_witness :
    ((some ("10.0.0.5".toList) : Option (List Char)) = Option.none ∨
      (Option.none : Option (List Char)) = Option.none ∨
      (Option.none : Option (List Char)) = Option.none) ∧
    resolveContext (some ("10.0.0.5".toList)) Option.none Option.none
        (some ("a:p:t".toList)) =
      parseDaisyContext (some ("a:p:t".toList)) ∧
    resolveContext (some ("10.0.0.5".toList)) Option.none Option.none
        (some ("a:p:t".toList)) =
      Except.ok ("a".toList, "p".toList, "t".toList) :=
  ⟨Or.inr (Or.inl rfl),
   claim_C10_partial_params_use_env.1 _ _ _ _ (Or.inr (Or.inl rfl)),
   rfl⟩

end Daisy
